import Mathlib

/-!
Shallow embedding of the airline seat-reservation program
(`src/airplane.py`, `src/airline.py`) and proofs of the specification
claims about it.

Conventions of the embedding:
* Python `int` values are modelled as `Int`; counts coming from `range`
  loops are traversed through `pyRange`, which (like Python `range`)
  yields nothing for a non-positive argument.
* Python strings are modelled as `String`, manipulated through their
  character list `String.data`.
* `str(n)` (decimal rendering) is modelled by `intRepr`, a decimal
  printer defined below; `int(s)` is modelled by `pyInt?`, which accepts
  an optional sign followed by a non-empty run of decimal digits and
  fails (`none`, modelling `ValueError`) otherwise.
* `chr(n)` is modelled by `pyChr`; `chr` is total here (Lean `Char`
  defaults invalid code points) while Python raises outside
  `[0, 0x110000)` — the difference is unreachable in the verified code
  paths, which bounds-check rows first.
* Python `set` is modelled as `Finset String`; Python `dict` (which
  preserves insertion order and updates keys in place) is modelled as an
  association list with `pyDictInsert` / `pyDictGet?`.
-/


/-- The decimal digit characters used by `str`: `digitChar d` is the
character for a digit `d < 10`. -/
def digitChar (d : Nat) : Char :=
  match d with
  | 0 => '0' | 1 => '1' | 2 => '2' | 3 => '3' | 4 => '4'
  | 5 => '5' | 6 => '6' | 7 => '7' | 8 => '8' | _ => '9'

/-- Value of a decimal digit character, `none` for a non-digit. -/
def digitVal? (c : Char) : Option Nat :=
  if '0' ≤ c ∧ c ≤ '9' then some (c.toNat - 48) else none

/-- Fuelled decimal printer for `Nat` (most significant digit first).
The fuel argument only makes the recursion structural; `natToDigits`
always supplies enough. -/
def natToDigitsAux : Nat → Nat → List Char
  | 0, _ => []
  | fuel + 1, n =>
    if n < 10 then [digitChar n]
    else natToDigitsAux fuel (n / 10) ++ [digitChar (n % 10)]

/-- Decimal digits of a natural number, as `str` renders them. -/
def natToDigits (n : Nat) : List Char :=
  natToDigitsAux (n + 1) n

/-- Characters of `str(i)` for a Python integer `i`. -/
def intRepr (i : Int) : List Char :=
  if i < 0 then '-' :: natToDigits (-i).toNat else natToDigits i.toNat

/-- Accumulating decimal reader: extends `acc` with the digits of `cs`,
failing on the first non-digit. -/
def strDigitsAux : List Char → Nat → Option Nat
  | [], acc => some acc
  | c :: rest, acc =>
    match digitVal? c with
    | some d => strDigitsAux rest (acc * 10 + d)
    | none => none

/-- Reads a non-empty run of decimal digits as a natural number. -/
def strDigits? : List Char → Option Nat
  | [] => none
  | cs => strDigitsAux cs 0

/-- Models Python `int(s)` on a seat-identifier suffix: an optional
sign followed by a non-empty run of decimal digits; `none` models the
`ValueError` raised on anything else. -/
def pyInt? (cs : List Char) : Option Int :=
  match cs with
  | [] => none
  | c :: rest =>
    if c = '-' then (strDigits? rest).map (fun (m : Nat) => -(m : Int))
    else if c = '+' then (strDigits? rest).map (fun (m : Nat) => (m : Int))
    else (strDigits? (c :: rest)).map (fun (m : Nat) => (m : Int))

/-- Models Python `chr` (total here; see module comment). -/
def pyChr (i : Int) : Char :=
  Char.ofNat i.toNat

/-- Models Python `range(n)` as the list `[0, 1, ..., n-1]` (empty for
`n ≤ 0`). -/
def pyRange (n : Int) : List Int :=
  (List.range n.toNat).map (fun (i : Nat) => (i : Int))

/-- Models Python `d.get(k)` / `d[k]` lookup on a dict. -/
def pyDictGet? {α : Type} : List (String × α) → String → Option α
  | [], _ => none
  | (k, v) :: rest, key => if k = key then some v else pyDictGet? rest key

/-- Models Python `d[k] = v`: replaces the value in place if the key is
present, otherwise appends the new binding. -/
def pyDictInsert {α : Type} : List (String × α) → String → α → List (String × α)
  | [], key, v => [(key, v)]
  | (k, w) :: rest, key, v =>
    if k = key then (key, v) :: rest else (k, w) :: pyDictInsert rest key v

/-- Models Python `s.endswith(t)`. -/
def pyEndsWith (s t : String) : Bool :=
  s.data.drop (s.data.length - t.data.length) == t.data

/-- The `Airplane` class of `src/airplane.py`: name, row count, row
layout and the set of reserved seat identifiers. `seats_per_row` is
derived from the layout (see `Airplane.seats_per_row`); every
construction in the source computes it the same way, so it is modelled
as a function rather than a stored field. -/
structure Airplane where
  name : String
  row_count : Int
  row_layout : String
  reserved_seats : Finset String
deriving DecidableEq

/-- `Airplane.__init__`: stores the arguments unvalidated and starts
with an empty reserved set. -/
def mkAirplane (name : String) (row_count : Int) (row_layout : String) : Airplane :=
  { name := name, row_count := row_count, row_layout := row_layout,
    reserved_seats := ∅ }

/-- `Airplane.__init__` never raises for string/integer arguments: the
constructor performs no validation (the `name` property setter is not
invoked by `__init__`, which assigns the private attribute directly).
The `Except` result records the absence of any failure channel. -/
def Airplane.construct (name : String) (row_count : Int) (row_layout : String) :
    Except String Airplane :=
  Except.ok (mkAirplane name row_count row_layout)

/-- `sum(1 for c in row_layout if c == 'x')`. -/
def Airplane.seats_per_row (a : Airplane) : Nat :=
  a.row_layout.data.count 'x'

/-- `Airplane.get_seat_name`: `chr(ord('A') + row) + str(position)`. -/
def get_seat_name (row position : Int) : String :=
  String.mk (pyChr (65 + row) :: intRepr position)

/-- `Airplane.get_seat_index`: parses a seat identifier and returns the
flat index `row * seats_per_row + position`, or `none` for malformed or
out-of-bounds identifiers. -/
def Airplane.get_seat_index (a : Airplane) (seat_name : String) : Option Int :=
  match seat_name.data with
  | [] => none
  | [_] => none
  | c :: rest =>
    match pyInt? rest with
    | none => none
    | some position =>
      let row : Int := (c.toNat : Int) - 65
      if row < 0 ∨ row ≥ a.row_count ∨ position < 0 ∨
          position ≥ (a.seats_per_row : Int) then none
      else some (row * a.seats_per_row + position)

/-- `Airplane.check_consecutive_seats`: true when the start seat parses,
the block lies within the row, and none of the `num_seats` seats is
reserved. -/
def Airplane.check_consecutive_seats (a : Airplane) (start_seat_name : String)
    (num_seats : Int) : Bool :=
  match start_seat_name.data with
  | [] => false
  | [_] => false
  | c :: rest =>
    match pyInt? rest with
    | none => false
    | some start_pos =>
      let start_row : Int := (c.toNat : Int) - 65
      if start_row < 0 ∨ start_row ≥ a.row_count ∨ start_pos < 0 ∨
          start_pos + num_seats > (a.seats_per_row : Int) then false
      else
        (pyRange num_seats).all
          (fun i => decide (get_seat_name start_row (start_pos + i) ∉ a.reserved_seats))

/-- `Airplane.book_seats`: re-validates via `check_consecutive_seats`,
then adds all the block's seats to the reserved set. Returns the updated
airplane and the boolean result. -/
def Airplane.book_seats (a : Airplane) (start_seat_name : String)
    (num_seats : Int) : Airplane × Bool :=
  if ¬ a.check_consecutive_seats start_seat_name num_seats then (a, false)
  else
    match start_seat_name.data with
    | [] => (a, false)
    | c :: rest =>
      match pyInt? rest with
      | none => (a, false)
      | some start_pos =>
        let start_row : Int := (c.toNat : Int) - 65
        let seats := (pyRange num_seats).map
          (fun i => get_seat_name start_row (start_pos + i))
        ({ a with reserved_seats :=
            seats.foldl (fun s nm => insert nm s) a.reserved_seats }, true)

/-- The removal loop of `Airplane.cancel_seats`: removes the block's
seats in order, stopping (and reporting failure) at the first seat that
is not currently reserved. -/
def cancel_seats_loop (start_row start_pos : Int) :
    List Int → Finset String → Finset String × Bool
  | [], s => (s, true)
  | i :: rest, s =>
    let nm := get_seat_name start_row (start_pos + i)
    if nm ∈ s then cancel_seats_loop start_row start_pos rest (s.erase nm)
    else (s, false)

/-- `Airplane.cancel_seats`: parses and bounds-checks like
`check_consecutive_seats`, then removes the block's seats one by one,
returning `false` as soon as a seat is found unreserved. -/
def Airplane.cancel_seats (a : Airplane) (start_seat_name : String)
    (num_seats : Int) : Airplane × Bool :=
  match start_seat_name.data with
  | [] => (a, false)
  | [_] => (a, false)
  | c :: rest =>
    match pyInt? rest with
    | none => (a, false)
    | some start_pos =>
      let start_row : Int := (c.toNat : Int) - 65
      if start_row < 0 ∨ start_row ≥ a.row_count ∨ start_pos < 0 ∨
          start_pos + num_seats > (a.seats_per_row : Int) then (a, false)
      else
        let r := cancel_seats_loop start_row start_pos (pyRange num_seats) a.reserved_seats
        ({ a with reserved_seats := r.1 }, r.2)

def tenPowDigits : Nat → Nat → Nat
  | 0, _ => 1
  | fuel + 1, n => if n < 10 then 10 else tenPowDigits fuel (n / 10) * 10

/-! ### The `Airline` class and snapshot persistence (`src/airline.py`)

The snapshot file content is modelled as the value `yaml.safe_load`
would produce: a YAML-ish structured value (`YValue`), or `corrupt` for
content on which parsing raises. The embedding types snapshot fields
(`name` a string, `row_count` an integer, …); Python instead fails
dynamically (e.g. `KeyError` on a missing key, `TypeError` when
iterating a non-sequence), and both failure styles land in the same
`except` branch of `load_snapshot`, reported as a deserialization
error. -/

inductive YValue where
  | ynull
  | ybool (b : Bool)
  | yint (i : Int)
  | ystr (s : String)
  | ylist (xs : List YValue)
  | ydict (kvs : List (String × YValue))

/-- Python truthiness (`if data:`) of a parsed YAML value. -/
def yTruthy : YValue → Bool
  | .ynull => false
  | .ybool b => b
  | .yint i => decide (i ≠ 0)
  | .ystr s => !s.data.isEmpty
  | .ylist xs => !xs.isEmpty
  | .ydict kvs => !kvs.isEmpty

/-- Reads a YAML sequence of strings (`set(data["reserved_seats"])`
iterates it); fails if any element is not a string. -/
def strList? : List YValue → Option (List String)
  | [] => some []
  | .ystr s :: rest => (strList? rest).map (fun l => s :: l)
  | _ :: _ => none

/-- `Airplane.to_dict`: the serialized mapping. `list(self.reserved_seats)`
produces the set's elements in some order; the embedding uses the sorted
order (the order is not significant for any claim). -/
def Airplane.to_dict (a : Airplane) : YValue :=
  .ydict [("name", .ystr a.name), ("row_count", .yint a.row_count),
    ("row_layout", .ystr a.row_layout),
    ("reserved_seats", .ylist ((a.reserved_seats.sort (· ≤ ·)).map (fun s => .ystr s)))]

/-- `Airplane.from_dict`: reconstructs an airplane from a serialized
mapping, then replaces its reserved set with exactly the listed seats.
Missing keys (`KeyError`) and ill-typed fields are deserialization
errors. -/
def Airplane.from_dict (v : YValue) : Except String Airplane :=
  match v with
  | .ydict kvs =>
    match pyDictGet? kvs "name", pyDictGet? kvs "row_count",
        pyDictGet? kvs "row_layout", pyDictGet? kvs "reserved_seats" with
    | some (.ystr name), some (.yint row_count), some (.ystr row_layout),
        some (.ylist res) =>
      match strList? res with
      | some seats =>
        .ok { mkAirplane name row_count row_layout with
                reserved_seats := seats.toFinset }
      | none => .error "reserved seat entries must be strings"
    | _, _, _, _ => .error "missing or ill-typed airplane field"
  | _ => .error "airplane entry is not a mapping"

/-- The `Airline` class: airline name, the `airplanes` dict (insertion
ordered, keyed by airplane name) and the derived default snapshot
filename. -/
structure Airline where
  name : String
  airplanes : List (String × Airplane)
  default_snapshot_filename : String
deriving DecidableEq

/-- `Airline.__init__`: empty fleet; the default snapshot filename is
the lowercased name with spaces replaced by underscores, plus `.snap`. -/
def mkAirline (name : String) : Airline :=
  { name := name, airplanes := [],
    default_snapshot_filename :=
      String.mk ((name.data.map Char.toLower).map (fun c => if c = ' ' then '_' else c))
        ++ ".snap" }

/-- `Airline.add_airplane`: fails if the name is already registered,
otherwise constructs an `Airplane` and inserts it. -/
def Airline.add_airplane (al : Airline) (airplane_name : String)
    (row_count : Int) (row_layout : String) : Airline × Bool :=
  if (pyDictGet? al.airplanes airplane_name).isSome then (al, false)
  else
    let plane := mkAirplane airplane_name row_count row_layout
    ({ al with airplanes := pyDictInsert al.airplanes airplane_name plane }, true)

/-- `Airline.to_dict`: `{name, airplanes: [airplane.to_dict() ...]}` in
the dict's value order. -/
def Airline.to_dict (al : Airline) : YValue :=
  .ydict [("name", .ystr al.name),
    ("airplanes", .ylist (al.airplanes.map (fun kp => kp.2.to_dict)))]

/-- Snapshot file system: paths mapped to content. `corrupt` stands for
file content on which `yaml.safe_load` raises. -/
inductive FileContent where
  | corrupt
  | yaml (v : YValue)

/-- The file system the Snapshot Store reads and writes. -/
abbrev FS := List (String × FileContent)

/-- The loading loop of `Airline.load_snapshot`: deserializes each
airplane entry in order and upserts it into the `airplanes` dict by
name; stops (reporting failure, with earlier upserts kept) at the first
entry that fails to deserialize. -/
def load_airplane_entries (d : List (String × Airplane)) :
    List YValue → List (String × Airplane) × Bool
  | [] => (d, true)
  | e :: rest =>
    match Airplane.from_dict e with
    | .ok p => load_airplane_entries (pyDictInsert d p.name p) rest
    | .error _ => (d, false)

/-- `Airline.load_snapshot`: missing file → `false` with no change;
content on which parsing raises → `false` with no change; falsy parsed
data → `true` with no change; otherwise iterate
`data.get("airplanes", [])`, upserting deserialized airplanes. A
non-mapping `data` or a non-sequence `"airplanes"` value raises in
Python before any upsert; both are modelled as `(al, false)`. -/
def Airline.load_snapshot (al : Airline) (fs : FS)
    (snapshot_filename : Option String) : Airline × Bool :=
  let fname := snapshot_filename.getD al.default_snapshot_filename
  match pyDictGet? fs fname with
  | none => (al, false)
  | some .corrupt => (al, false)
  | some (.yaml data) =>
    if yTruthy data then
      match data with
      | .ydict kvs =>
        match pyDictGet? kvs "airplanes" with
        | none => (al, true)
        | some (.ylist entries) =>
          let r := load_airplane_entries al.airplanes entries
          ({ al with airplanes := r.1 }, r.2)
        | some _ => (al, false)
      | _ => (al, false)
    else (al, true)

/-- `Airline.save_snapshot`: rejects any filename not ending in `.snap`
before touching the file system, then writes the serialized registry.
The write itself is modelled as succeeding (OS-level I/O faults are out
of scope of the embedding). -/
def Airline.save_snapshot (al : Airline) (fs : FS)
    (snapshot_filename : Option String) : FS × Bool :=
  let fname := snapshot_filename.getD al.default_snapshot_filename
  if ¬ pyEndsWith fname ".snap" then (fs, false)
  else (pyDictInsert fs fname (.yaml al.to_dict), true)

/-! ### Concrete fixtures used by counterexamples and witnesses -/

/-- The seats of the block that `cancel_seats` targets: the parsed
start seat plus offsets `0, ..., num_seats - 1` (empty when parsing
fails, in which case no seat is touched at all). -/
def targeted_seats (s : String) (n : Int) : List String :=
  match s.data with
  | [] => []
  | [_] => []
  | c :: rest =>
    match pyInt? rest with
    | none => []
    | some start_pos =>
      (pyRange n).map (fun i => get_seat_name ((c.toNat : Int) - 65) (start_pos + i))

/-- A fresh two-row airplane with the default 8-seat layout. -/
def planeA : Airplane := mkAirplane "TA101" 2 "xx_xxxx_xx"

/-- `planeA` with only seat `A1` reserved. -/
def planeC1 : Airplane := { planeA with reserved_seats := {"A1"} }

/-- `planeA` with only seat `B2` reserved. -/
def planeW1 : Airplane := { planeA with reserved_seats := {"B2"} }

/-- A serialized airplane mapping that deserializes successfully. -/
def goodPlaneDict : YValue :=
  YValue.ydict [("name", YValue.ystr "TA1"), ("row_count", YValue.yint 1),
    ("row_layout", YValue.ystr "x"), ("reserved_seats", YValue.ylist [])]

/-- Snapshot data whose first airplane entry deserializes and whose
second fails (`KeyError` on every field). -/
def badSnapshotData : YValue :=
  YValue.ydict [("airplanes", YValue.ylist [goodPlaneDict, YValue.ydict []])]

/-- A freshly constructed airline with no airplanes. -/
def airlineE : Airline := mkAirline "Test Airways"

/-- A one-row, one-seat airplane with seat `A0` reserved. -/
def planeB : Airplane := { mkAirplane "TA1" 1 "x" with reserved_seats := {"A0"} }

/-- A registry holding `planeB` under its own name. -/
def airlineR : Airline := { mkAirline "Air" with airplanes := [("TA1", planeB)] }

example : (mkAirplane "TA101" 2 "xx_xxxx_xx").seats_per_row = 8 := by decide
example : get_seat_name 0 5 = "A5" := by decide
example : (mkAirplane "TA101" 3 "xx_xxxx_xx").get_seat_index "A1" = some 1 := by decide
example : (mkAirplane "TA101" 3 "xx_xxxx_xx").get_seat_index "B0" = some 8 := by decide
example : (mkAirplane "TA101" 3 "xx_xxxx_xx").get_seat_index "D0" = none := by decide
example : (mkAirplane "TA101" 3 "xx_xxxx_xx").get_seat_index "A9" = none := by decide
example : (mkAirplane "TA101" 2 "xx_xxxx_xx").check_consecutive_seats "A1" 3 = true := by decide
example : (mkAirplane "TA101" 2 "xx_xxxx_xx").check_consecutive_seats "A0" 8 = true := by decide
example : (mkAirplane "TA101" 2 "xx_xxxx_xx").check_consecutive_seats "A9" 2 = false := by decide
example : ((mkAirplane "TA101" 2 "xx_xxxx_xx").book_seats "A1" 3).2 = true := by decide
example :
    ((mkAirplane "TA101" 2 "xx_xxxx_xx").book_seats "A1" 3).1.reserved_seats =
      {"A1", "A2", "A3"} := by decide
example :
    (((mkAirplane "TA101" 2 "xx_xxxx_xx").book_seats "A1" 3).1.cancel_seats "A1" 3).2 =
      true := by decide

example : (mkAirline "Test Airways").default_snapshot_filename = "test_airways.snap" := by
  decide
example : ((mkAirline "Test Airways").add_airplane "TA101" 20 "xx_xxxx_xx").2 = true := by
  decide
example :
    ((((mkAirline "Test Airways").add_airplane "TA101" 20 "xx_xxxx_xx").1.add_airplane
      "TA101" 20 "xx_xxxx_xx").2) = false := by decide

/-! ### Decimal printer / reader facts -/

/-- `10 ^ (number of decimal digits of n)`, fuelled like `natToDigitsAux`. -/

theorem digitVal_digitChar (d : Nat) (h : d < 10) :
    digitVal? (digitChar d) = some d := by
  interval_cases d <;> rfl

theorem digitChar_ne_dash (d : Nat) (h : d < 10) : digitChar d ≠ '-' := by
  interval_cases d <;> decide

theorem digitChar_ne_plus (d : Nat) (h : d < 10) : digitChar d ≠ '+' := by
  interval_cases d <;> decide

theorem natToDigitsAux_head (fuel n : Nat) (h : n < fuel) :
    ∃ d t, d < 10 ∧ natToDigitsAux fuel n = digitChar d :: t := by
  induction fuel generalizing n with
  | zero => omega
  | succ fuel ih =>
    by_cases h10 : n < 10
    · exact ⟨n, [], h10, by simp [natToDigitsAux, h10]⟩
    · have hrec : n / 10 < fuel := by
        have := Nat.div_lt_self (by omega : 0 < n) (by omega : 1 < 10)
        omega
      obtain ⟨d, t, hd, ht⟩ := ih (n / 10) hrec
      exact ⟨d, t ++ [digitChar (n % 10)], hd, by simp [natToDigitsAux, h10, ht]⟩

theorem strDigitsAux_natToDigitsAux (fuel : Nat) :
    ∀ n rest acc, n < fuel →
      strDigitsAux (natToDigitsAux fuel n ++ rest) acc =
        strDigitsAux rest (acc * tenPowDigits fuel n + n) := by
  induction fuel with
  | zero => intro n _ _ h; omega
  | succ fuel ih =>
    intro n rest acc h
    by_cases h10 : n < 10
    · simp [natToDigitsAux, tenPowDigits, h10, strDigitsAux, digitVal_digitChar n h10]
    · have hrec : n / 10 < fuel := by
        have := Nat.div_lt_self (by omega : 0 < n) (by omega : 1 < 10)
        omega
      have hmod : n % 10 < 10 := Nat.mod_lt _ (by omega)
      simp only [natToDigitsAux, tenPowDigits, h10, if_false, List.append_assoc,
        List.cons_append, List.nil_append]
      rw [ih (n / 10) (digitChar (n % 10) :: rest) acc hrec]
      simp only [strDigitsAux, digitVal_digitChar (n % 10) hmod]
      congr 1
      have := Nat.div_add_mod n 10
      ring_nf
      omega

theorem natToDigitsAux_ne_nil (fuel n : Nat) (h : n < fuel) :
    natToDigitsAux fuel n ≠ [] := by
  obtain ⟨d, t, _, ht⟩ := natToDigitsAux_head fuel n h
  simp [ht]

theorem strDigits_natToDigits (n : Nat) : strDigits? (natToDigits n) = some n := by
  obtain ⟨d, t, hd, ht⟩ := natToDigitsAux_head (n + 1) n (Nat.lt_succ_self n)
  have key := strDigitsAux_natToDigitsAux (n + 1) n [] 0 (Nat.lt_succ_self n)
  rw [List.append_nil] at key
  unfold natToDigits
  rw [ht] at key ⊢
  rw [show strDigits? (digitChar d :: t) = strDigitsAux (digitChar d :: t) 0 from rfl,
    key]
  simp [strDigitsAux]

theorem pyInt_natToDigits (n : Nat) : pyInt? (natToDigits n) = some (n : Int) := by
  obtain ⟨d, t, hd, ht⟩ := natToDigitsAux_head (n + 1) n (Nat.lt_succ_self n)
  have h1 := strDigits_natToDigits n
  unfold natToDigits at h1 ⊢
  rw [ht] at h1 ⊢
  simp [pyInt?, digitChar_ne_dash d hd, digitChar_ne_plus d hd, h1]

theorem intRepr_natCast (n : Nat) : intRepr (n : Int) = natToDigits n := by
  simp [intRepr]

theorem pyChr_toNat (n : Nat) (h : n < 55296) : (pyChr (n : Int)).toNat = n := by
  have hv : Nat.isValidChar n := Or.inl h
  rw [pyChr, Int.toNat_natCast, Char.ofNat, dif_pos hv]
  rfl

theorem get_seat_name_natCast (r p : Nat) :
    (get_seat_name (r : Int) (p : Int)).data =
      pyChr (65 + (r : Int)) :: natToDigits p := by
  rw [get_seat_name]
  simp [intRepr_natCast]

theorem mem_pyRange {n i : Int} :
    i ∈ pyRange n ↔ ∃ j : Nat, (j : Int) < n ∧ i = (j : Int) := by
  simp only [pyRange, List.mem_map, List.mem_range]
  constructor
  · rintro ⟨j, hj, rfl⟩
    exact ⟨j, by omega, rfl⟩
  · rintro ⟨j, hj, rfl⟩
    exact ⟨j, by omega, rfl⟩

theorem pyRange_natCast (n : Nat) :
    pyRange (n : Int) = (List.range n).map (fun (i : Nat) => (i : Int)) := by
  rw [pyRange, Int.toNat_natCast]

theorem mem_foldl_insert (l : List String) (s : Finset String) (x : String) :
    x ∈ l.foldl (fun s nm => insert nm s) s ↔ x ∈ l ∨ x ∈ s := by
  induction l generalizing s with
  | nil => simp
  | cons a t ih =>
    simp only [List.foldl_cons, ih, List.mem_cons, Finset.mem_insert]
    tauto

theorem cancel_seats_loop_subset (r p : Int) (is : List Int) (s : Finset String) :
    (cancel_seats_loop r p is s).1 ⊆ s := by
  induction is generalizing s with
  | nil => exact Finset.Subset.refl s
  | cons i rest ih =>
    simp only [cancel_seats_loop]
    split
    · exact (ih (s.erase (get_seat_name r (p + i)))).trans (Finset.erase_subset _ s)
    · exact Finset.Subset.refl s

theorem cancel_seats_loop_removed (r p : Int) (is : List Int) (s : Finset String)
    (x : String) (hx : x ∈ s) (hx2 : x ∉ (cancel_seats_loop r p is s).1) :
    ∃ i ∈ is, x = get_seat_name r (p + i) := by
  induction is generalizing s with
  | nil => exact absurd hx hx2
  | cons i rest ih =>
    simp only [cancel_seats_loop] at hx2
    by_cases hmem : get_seat_name r (p + i) ∈ s
    · rw [if_pos hmem] at hx2
      by_cases hxi : x = get_seat_name r (p + i)
      · exact ⟨i, List.mem_cons_self i rest, hxi⟩
      · obtain ⟨i', hi', hx'⟩ :=
          ih (s.erase (get_seat_name r (p + i))) (Finset.mem_erase.mpr ⟨hxi, hx⟩) hx2
        exact ⟨i', List.mem_cons_of_mem i hi', hx'⟩
    · rw [if_neg hmem] at hx2
      exact absurd hx hx2

/-! ### Evaluating the seat operations on canonical seat identifiers -/

theorem get_seat_name_data_shape (r p : Nat) :
    ∃ d t, d < 10 ∧
      (get_seat_name (r : Int) (p : Int)).data =
        pyChr (65 + (r : Int)) :: digitChar d :: t ∧
      pyInt? (digitChar d :: t) = some (p : Int) := by
  obtain ⟨d, t, hd, ht0⟩ := natToDigitsAux_head (p + 1) p (Nat.lt_succ_self p)
  have ht : natToDigits p = digitChar d :: t := by unfold natToDigits; exact ht0
  refine ⟨d, t, hd, ?_, ?_⟩
  · rw [get_seat_name_natCast, ht]
  · rw [← ht]; exact pyInt_natToDigits p

theorem pyChr_row_toNat (r : Nat) (hc : 65 + r < 55296) :
    ((pyChr (65 + (r : Int))).toNat : Int) - 65 = (r : Int) := by
  have h65 : ((65 + r : Nat) : Int) = 65 + (r : Int) := by push_cast; ring
  rw [← h65, pyChr_toNat (65 + r) hc]
  push_cast
  ring

theorem check_canonical (a : Airplane) (r p : Nat) (n : Int) (hc : 65 + r < 55296) :
    a.check_consecutive_seats (get_seat_name (r : Int) (p : Int)) n = true ↔
      ((r : Int) < a.row_count ∧ (p : Int) + n ≤ (a.seats_per_row : Int) ∧
        ∀ j : Nat, (j : Int) < n →
          get_seat_name (r : Int) ((p : Int) + (j : Int)) ∉ a.reserved_seats) := by
  obtain ⟨d, t, hd, hdata, hpy⟩ := get_seat_name_data_shape r p
  rw [Airplane.check_consecutive_seats, hdata]
  simp only [hpy, pyChr_row_toNat r hc]
  have hr0 : ¬ ((r : Int) < 0) := by omega
  have hp0 : ¬ ((p : Int) < 0) := by omega
  by_cases hguard : (r : Int) ≥ a.row_count ∨ (p : Int) + n > (a.seats_per_row : Int)
  · rw [if_pos (by tauto)]
    simp only [Bool.false_eq_true, false_iff]
    rintro ⟨h1, h2, -⟩
    rcases hguard with hg | hg
    · omega
    · omega
  · rw [if_neg (by tauto)]
    push_neg at hguard
    rw [List.all_eq_true]
    constructor
    · intro h
      refine ⟨hguard.1, hguard.2, fun j hj => ?_⟩
      exact of_decide_eq_true (h (j : Int) (mem_pyRange.mpr ⟨j, hj, rfl⟩))
    · rintro ⟨-, -, h3⟩ i hi
      obtain ⟨j, hj, rfl⟩ := mem_pyRange.mp hi
      exact decide_eq_true (h3 j hj)

theorem book_canonical (a : Airplane) (r p : Nat) (n : Int) (hc : 65 + r < 55296)
    (h : a.check_consecutive_seats (get_seat_name (r : Int) (p : Int)) n = true) :
    a.book_seats (get_seat_name (r : Int) (p : Int)) n =
      ({ a with reserved_seats := List.foldl (fun s nm => insert nm s) a.reserved_seats ((pyRange n).map (fun i => get_seat_name (r : Int) ((p : Int) + i))) }, true) := by
  obtain ⟨d, t, hd, hdata, hpy⟩ := get_seat_name_data_shape r p
  rw [Airplane.book_seats, if_neg (by simp [h]), hdata]
  simp only [hpy, pyChr_row_toNat r hc]

theorem cancel_canonical (a : Airplane) (r p : Nat) (n : Int) (hc : 65 + r < 55296) :
    a.cancel_seats (get_seat_name (r : Int) (p : Int)) n =
      if (r : Int) ≥ a.row_count ∨ (p : Int) + n > (a.seats_per_row : Int) then
        (a, false)
      else
        ({ a with reserved_seats :=
            (cancel_seats_loop (r : Int) (p : Int) (pyRange n) a.reserved_seats).1 },
          (cancel_seats_loop (r : Int) (p : Int) (pyRange n) a.reserved_seats).2) := by
  obtain ⟨d, t, hd, hdata, hpy⟩ := get_seat_name_data_shape r p
  rw [Airplane.cancel_seats, hdata]
  simp only [hpy, pyChr_row_toNat r hc]
  have hr0 : ¬ ((r : Int) < 0) := by omega
  have hp0 : ¬ ((p : Int) < 0) := by omega
  by_cases hguard : (r : Int) ≥ a.row_count ∨ (p : Int) + n > (a.seats_per_row : Int)
  · rw [if_pos (by tauto), if_pos hguard]
  · rw [if_neg (by tauto), if_neg hguard]

/-! ### Serialization round-trip facts -/

theorem strList_map_ystr (l : List String) :
    strList? (l.map (fun s => YValue.ystr s)) = some l := by
  induction l with
  | nil => rfl
  | cons a t ih => simp [strList?, ih]

theorem from_dict_to_dict (p : Airplane) :
    Airplane.from_dict p.to_dict = Except.ok p := by
  have h1 := strList_map_ystr (p.reserved_seats.sort (· ≤ ·))
  have h2 : (p.reserved_seats.sort (· ≤ ·)).toFinset = p.reserved_seats :=
    Finset.sort_toFinset _ _
  simp only [Airplane.to_dict, Airplane.from_dict, pyDictGet?, mkAirplane]
  simp only [String.reduceEq, reduceIte]
  rw [h1]
  simp only [h2]

theorem pyDictInsert_not_mem {α : Type} (l : List (String × α)) (k : String) (v : α)
    (h : k ∉ l.map Prod.fst) : pyDictInsert l k v = l ++ [(k, v)] := by
  induction l with
  | nil => rfl
  | cons a t ih =>
    simp only [List.map_cons, List.mem_cons] at h
    push_neg at h
    obtain ⟨k1, v1⟩ := a
    simp only [pyDictInsert]
    rw [if_neg (fun he => h.1 he.symm), ih h.2]
    simp

theorem load_entries_roundtrip (l : List (String × Airplane)) :
    ∀ acc : List (String × Airplane),
      (∀ kp ∈ l, kp.2.name = kp.1) →
      (∀ k ∈ l.map Prod.fst, k ∉ acc.map Prod.fst) →
      (l.map Prod.fst).Nodup →
      load_airplane_entries acc (l.map (fun kp => kp.2.to_dict)) = (acc ++ l, true) := by
  induction l with
  | nil => intro acc _ _ _; simp [load_airplane_entries]
  | cons kp t ih =>
    intro acc hkeys hdisj hnodup
    obtain ⟨k, p⟩ := kp
    have hpk : p.name = k := hkeys (k, p) (List.mem_cons_self _ _)
    simp only [List.map_cons, load_airplane_entries, from_dict_to_dict]
    rw [hpk, pyDictInsert_not_mem acc k p (hdisj k (by simp))]
    have hnd : (k :: t.map Prod.fst).Nodup := by simpa using hnodup
    have hknott : k ∉ t.map Prod.fst := (List.nodup_cons.mp hnd).1
    have hndt : (t.map Prod.fst).Nodup := (List.nodup_cons.mp hnd).2
    have hdisj2 : ∀ k2 ∈ t.map Prod.fst, k2 ∉ (acc ++ [(k, p)]).map Prod.fst := by
      intro k2 hk2
      simp only [List.map_append, List.mem_append, List.map_cons, List.map_nil]
      rintro (hin | hin)
      · exact hdisj k2 (by simp [hk2]) hin
      · simp only [List.mem_singleton] at hin
        exact hknott (hin ▸ hk2)
    rw [ih (acc ++ [(k, p)]) (fun kp2 hkp2 => hkeys kp2 (List.mem_cons_of_mem _ hkp2))
      hdisj2 hndt]
    simp

theorem load_entries_false (es : List YValue) :
    ∀ acc : List (String × Airplane),
      (∃ e ∈ es, ∀ p, Airplane.from_dict e ≠ Except.ok p) →
      (load_airplane_entries acc es).2 = false := by
  induction es with
  | nil => intro acc h; simp at h
  | cons e rest ih =>
    intro acc h
    rcases h with ⟨e2, he2, herr⟩
    rcases List.mem_cons.mp he2 with rfl | hmem
    · cases hfd : Airplane.from_dict e2 with
      | ok p => exact absurd hfd (herr p)
      | error msg => simp [load_airplane_entries, hfd]
    · cases hfd : Airplane.from_dict e with
      | ok p =>
        simp only [load_airplane_entries, hfd]
        exact ih _ ⟨e2, hmem, herr⟩
      | error msg => simp [load_airplane_entries, hfd]

/-! ### Claims -/

/-- C1 (counterexample): with only `A1` reserved, `cancel_seats("A1", 2)`
returns `false` yet releases `A1` — a rejected cancellation does change
the reserved set, contradicting the claim that it releases no seat. -/
theorem cancel_block_partial_release_cex :
    (planeC1.cancel_seats "A1" 2).2 = false ∧
    ¬ ((planeC1.cancel_seats "A1" 2).1.reserved_seats = planeC1.reserved_seats) := by
  decide

/-- C1 (amended): a rejected `cancel_seats` call releases no seat
outside the targeted block — the reserved set after the call is a
subset of the one before, and every released seat is one of the `n`
targeted seats (the targeted seats preceding the first unreserved one);
it is not all-or-nothing. -/
theorem cancel_block_fail_releases_only_targeted (a : Airplane) (s : String) (n : Int)
    (h : (a.cancel_seats s n).2 = false) :
    (a.cancel_seats s n).1.reserved_seats ⊆ a.reserved_seats ∧
    ∀ x ∈ a.reserved_seats, x ∉ (a.cancel_seats s n).1.reserved_seats →
      x ∈ targeted_seats s n := by
  clear h
  rcases hs : s.data with _ | ⟨c, _ | ⟨d, t⟩⟩
  · rw [Airplane.cancel_seats, hs]
    exact ⟨Finset.Subset.refl _, fun x hx hx2 => absurd hx hx2⟩
  · rw [Airplane.cancel_seats, hs]
    exact ⟨Finset.Subset.refl _, fun x hx hx2 => absurd hx hx2⟩
  · rw [Airplane.cancel_seats, targeted_seats, hs]
    cases hpi : pyInt? (d :: t) with
    | none =>
      simp only [hpi]
      exact ⟨Finset.Subset.refl _, fun x hx hx2 => absurd hx hx2⟩
    | some start_pos =>
      simp only [hpi]
      by_cases hg : (c.toNat : Int) - 65 < 0 ∨ (c.toNat : Int) - 65 ≥ a.row_count ∨
          start_pos < 0 ∨ start_pos + n > (a.seats_per_row : Int)
      · simp only [hg, if_true]
        exact ⟨Finset.Subset.refl _, fun x hx hx2 => absurd hx hx2⟩
      · simp only [hg, if_false]
        constructor
        · exact cancel_seats_loop_subset _ _ _ _
        · intro x hx hx2
          obtain ⟨i, hi, hxi⟩ :=
            cancel_seats_loop_removed _ _ (pyRange n) a.reserved_seats x hx hx2
          exact List.mem_map.mpr ⟨i, hi, hxi.symm⟩

/-- C1 (witness): instance of the amended theorem at `planeW1`,
`cancel_seats("B2", 2)`. -/
theorem cancel_block_fail_releases_only_targeted_witness :
    (planeW1.cancel_seats "B2" 2).2 = false ∧
    ((planeW1.cancel_seats "B2" 2).1.reserved_seats ⊆ planeW1.reserved_seats ∧
      ∀ x ∈ planeW1.reserved_seats, x ∉ (planeW1.cancel_seats "B2" 2).1.reserved_seats →
        x ∈ targeted_seats "B2" 2) :=
  ⟨by decide, cancel_block_fail_releases_only_targeted planeW1 "B2" 2 (by decide)⟩

/-- C2: for a well-formed in-bounds start seat, `check_consecutive_seats`
is true iff all `n` seats of the block are in bounds and unreserved; and
a successful `book_seats` implies the check held before and all `n`
seats are reserved afterwards. -/
theorem check_block_iff_and_book_block_post (a : Airplane) (r p n : Nat)
    (hc : 65 + r < 55296)
    (hrow : (r : Int) < a.row_count)
    (hpos : p < a.seats_per_row) :
    (a.check_consecutive_seats (get_seat_name (r : Int) (p : Int)) (n : Int) = true ↔
      ∀ i : Nat, i < n →
        (r : Int) < a.row_count ∧ p + i < a.seats_per_row ∧
        get_seat_name (r : Int) ((p + i : Nat) : Int) ∉ a.reserved_seats) ∧
    ((a.book_seats (get_seat_name (r : Int) (p : Int)) (n : Int)).2 = true →
      a.check_consecutive_seats (get_seat_name (r : Int) (p : Int)) (n : Int) = true ∧
      ∀ i : Nat, i < n →
        get_seat_name (r : Int) ((p + i : Nat) : Int) ∈
          (a.book_seats (get_seat_name (r : Int) (p : Int)) (n : Int)).1.reserved_seats) := by
  have hch := check_canonical a r p (n : Int) hc
  constructor
  · rw [hch]
    constructor
    · rintro ⟨h1, h2, h3⟩ i hi
      refine ⟨hrow, by omega, ?_⟩
      have hmem := h3 i (by exact_mod_cast hi)
      rwa [show ((p + i : Nat) : Int) = (p : Int) + (i : Int) by push_cast; ring]
    · intro h
      refine ⟨hrow, ?_, ?_⟩
      · by_cases hn : n = 0
        · subst hn
          have : (p : Int) < (a.seats_per_row : Int) := by exact_mod_cast hpos
          omega
        · have := (h (n - 1) (by omega)).2.1
          omega
      · intro j hj
        have hjn : j < n := by exact_mod_cast hj
        have hmem := (h j hjn).2.2
        rwa [show ((p + j : Nat) : Int) = (p : Int) + (j : Int) by push_cast; ring] at hmem
  · intro hb
    have hcheck : a.check_consecutive_seats (get_seat_name (r : Int) (p : Int)) (n : Int) = true := by
      by_contra hne
      rw [Airplane.book_seats, if_pos hne] at hb
      exact absurd hb (by simp)
    refine ⟨hcheck, ?_⟩
    rw [book_canonical a r p (n : Int) hc hcheck]
    intro i hi
    rw [show ((p + i : Nat) : Int) = (p : Int) + (i : Int) by push_cast; ring]
    show _ ∈ List.foldl (fun s nm => insert nm s) a.reserved_seats _
    rw [mem_foldl_insert]
    left
    exact List.mem_map.mpr ⟨(i : Int), mem_pyRange.mpr ⟨i, by exact_mod_cast hi, rfl⟩, rfl⟩

/-- C2 (witness): instance at the fresh two-row plane, seat `A1`,
block size 3. -/
theorem check_block_iff_and_book_block_post_witness :
    (65 + 0 < 55296 ∧ ((0 : Nat) : Int) < planeA.row_count ∧ 1 < planeA.seats_per_row) ∧
    ((planeA.check_consecutive_seats (get_seat_name ((0 : Nat) : Int) ((1 : Nat) : Int)) ((3 : Nat) : Int) = true ↔
      ∀ i : Nat, i < 3 →
        ((0 : Nat) : Int) < planeA.row_count ∧ 1 + i < planeA.seats_per_row ∧
        get_seat_name ((0 : Nat) : Int) ((1 + i : Nat) : Int) ∉ planeA.reserved_seats) ∧
    ((planeA.book_seats (get_seat_name ((0 : Nat) : Int) ((1 : Nat) : Int)) ((3 : Nat) : Int)).2 = true →
      planeA.check_consecutive_seats (get_seat_name ((0 : Nat) : Int) ((1 : Nat) : Int)) ((3 : Nat) : Int) = true ∧
      ∀ i : Nat, i < 3 →
        get_seat_name ((0 : Nat) : Int) ((1 + i : Nat) : Int) ∈
          (planeA.book_seats (get_seat_name ((0 : Nat) : Int) ((1 : Nat) : Int)) ((3 : Nat) : Int)).1.reserved_seats)) :=
  ⟨⟨by decide, by decide, by decide⟩,
    check_block_iff_and_book_block_post planeA 0 1 3 (by decide) (by decide) (by decide)⟩

/-- C3: a block that exactly fills the remaining row width is accepted
by `book_seats` when its seats are free; any block extending past the
row width is rejected by both `check_consecutive_seats` and
`book_seats`; concretely on a fresh 2-row, 8-seat plane,
`book_seats("A3", 5)` succeeds while `book_seats("A4", 5)` fails. -/
theorem book_block_boundary (a : Airplane) (r p n : Nat)
    (hc : 65 + r < 55296)
    (hrow : (r : Int) < a.row_count)
    (hfill : p + n = a.seats_per_row)
    (hfree : ∀ i : Nat, i < n →
      get_seat_name (r : Int) ((p + i : Nat) : Int) ∉ a.reserved_seats) :
    ((a.book_seats (get_seat_name (r : Int) (p : Int)) (n : Int)).2 = true) ∧
    (∀ p2 n2 : Nat, (p2 : Int) + (n2 : Int) > (a.seats_per_row : Int) →
      a.check_consecutive_seats (get_seat_name (r : Int) (p2 : Int)) (n2 : Int) = false ∧
      (a.book_seats (get_seat_name (r : Int) (p2 : Int)) (n2 : Int)).2 = false) ∧
    ((planeA.book_seats "A3" 5).2 = true) ∧
    ((planeA.book_seats "A4" 5).2 = false) := by
  have hcheck : a.check_consecutive_seats (get_seat_name (r : Int) (p : Int)) (n : Int) = true := by
    rw [check_canonical a r p (n : Int) hc]
    refine ⟨hrow, by omega, ?_⟩
    intro j hj
    have hjn : j < n := by exact_mod_cast hj
    have hmem := hfree j hjn
    rwa [show ((p + j : Nat) : Int) = (p : Int) + (j : Int) by push_cast; ring] at hmem
  refine ⟨?_, ?_, by decide, by decide⟩
  · rw [book_canonical a r p (n : Int) hc hcheck]
  · intro p2 n2 hp2
    have hcheck2 : a.check_consecutive_seats (get_seat_name (r : Int) (p2 : Int)) (n2 : Int) = false := by
      rw [← Bool.not_eq_true, check_canonical a r p2 (n2 : Int) hc]
      rintro ⟨-, h2, -⟩
      omega
    refine ⟨hcheck2, ?_⟩
    rw [Airplane.book_seats, if_pos (by simp [hcheck2])]

/-- C3 (witness): instance at the fresh plane, row `A`, start position
3, block size 5 (`3 + 5 = 8` exactly fills the row). -/
theorem book_block_boundary_witness :
    (65 + 0 < 55296 ∧ ((0 : Nat) : Int) < planeA.row_count ∧
      3 + 5 = planeA.seats_per_row ∧
      ∀ i : Nat, i < 5 →
        get_seat_name ((0 : Nat) : Int) ((3 + i : Nat) : Int) ∉ planeA.reserved_seats) ∧
    (((planeA.book_seats (get_seat_name ((0 : Nat) : Int) ((3 : Nat) : Int)) ((5 : Nat) : Int)).2 = true) ∧
    (∀ p2 n2 : Nat, (p2 : Int) + (n2 : Int) > (planeA.seats_per_row : Int) →
      planeA.check_consecutive_seats (get_seat_name ((0 : Nat) : Int) (p2 : Int)) (n2 : Int) = false ∧
      (planeA.book_seats (get_seat_name ((0 : Nat) : Int) (p2 : Int)) (n2 : Int)).2 = false) ∧
    ((planeA.book_seats "A3" 5).2 = true) ∧
    ((planeA.book_seats "A4" 5).2 = false)) :=
  ⟨⟨by decide, by decide, by decide, by decide⟩,
    book_block_boundary planeA 0 3 5 (by decide) (by decide) (by decide) (by decide)⟩

/-- C4 (counterexample): constructing an airplane with an empty name
and `row_count = 0` succeeds — no `ValidationError` is raised, refuting
the claim that construction fails for such arguments. -/
theorem construct_no_validation_cex :
    Airplane.construct "" 0 "xx_xxxx_xx" = Except.ok (mkAirplane "" 0 "xx_xxxx_xx") :=
  rfl

/-- C4 (amended): `Airplane.__init__` performs no validation at all:
construction succeeds for every name and every row count, storing the
arguments unchanged with an empty reserved set. -/
theorem construct_always_succeeds (name : String) (rc : Int) (layout : String) :
    Airplane.construct name rc layout = Except.ok (mkAirplane name rc layout) ∧
    (mkAirplane name rc layout).name = name ∧
    (mkAirplane name rc layout).row_count = rc ∧
    (mkAirplane name rc layout).row_layout = layout ∧
    (mkAirplane name rc layout).reserved_seats = ∅ :=
  ⟨rfl, rfl, rfl, rfl, rfl⟩

/-- C5 (counterexample): loading a snapshot whose second airplane entry
fails to deserialize returns `false` but leaves the first entry merged:
the registry's airplane mapping is changed by the failed load, refuting
the claim that a deserialization failure leaves it exactly as before. -/
theorem load_snapshot_partial_merge_cex :
    ((airlineE.load_snapshot [("s.snap", FileContent.yaml badSnapshotData)]
        (some "s.snap")).2 = false) ∧
    ¬ ((airlineE.load_snapshot [("s.snap", FileContent.yaml badSnapshotData)]
        (some "s.snap")).1.airplanes = airlineE.airplanes) := by
  decide

/-- C5 (amended): `load_snapshot` returns `false` and leaves the
registry unchanged when the file does not exist or its content fails to
parse; when the content parses but some airplane entry fails to
deserialize it also returns `false`, but airplanes deserialized before
the failing entry have already been merged, so the registry may be
changed. -/
theorem load_snapshot_failure_cases (al : Airline) (fs : FS) (fname : String) :
    (pyDictGet? fs fname = none → al.load_snapshot fs (some fname) = (al, false)) ∧
    (pyDictGet? fs fname = some FileContent.corrupt →
      al.load_snapshot fs (some fname) = (al, false)) ∧
    (∀ kvs entries, pyDictGet? fs fname = some (FileContent.yaml (YValue.ydict kvs)) →
      pyDictGet? kvs "airplanes" = some (YValue.ylist entries) →
      (∃ e ∈ entries, ∀ q, Airplane.from_dict e ≠ Except.ok q) →
      (al.load_snapshot fs (some fname)).2 = false) := by
  refine ⟨?_, ?_, ?_⟩
  · intro h
    rw [Airline.load_snapshot]
    simp only [Option.getD_some, h]
  · intro h
    rw [Airline.load_snapshot]
    simp only [Option.getD_some, h]
  · intro kvs entries h1 h2 h3
    have hkvs : kvs ≠ [] := by
      intro hnil
      rw [hnil] at h2
      exact Option.noConfusion h2
    rw [Airline.load_snapshot]
    simp only [Option.getD_some, h1]
    have htruthy : yTruthy (YValue.ydict kvs) = true := by
      cases kvs with
      | nil => exact absurd rfl hkvs
      | cons a t => rfl
    simp only [htruthy, if_true, h2]
    exact load_entries_false entries al.airplanes h3

/-- C5 (witness): instances of the three failure cases of the amended
theorem: missing file, corrupt file, and a partially deserializable
file. -/
theorem load_snapshot_failure_cases_witness :
    (airlineE.load_snapshot [] (some "t.snap") = (airlineE, false)) ∧
    (airlineE.load_snapshot [("t.snap", FileContent.corrupt)] (some "t.snap") =
      (airlineE, false)) ∧
    ((airlineE.load_snapshot [("t.snap", FileContent.yaml badSnapshotData)]
        (some "t.snap")).2 = false) :=
  ⟨(load_snapshot_failure_cases airlineE [] "t.snap").1 rfl,
    (load_snapshot_failure_cases airlineE [("t.snap", FileContent.corrupt)] "t.snap").2.1 rfl,
    (load_snapshot_failure_cases airlineE [("t.snap", FileContent.yaml badSnapshotData)]
        "t.snap").2.2 [("airplanes", YValue.ylist [goodPlaneDict, YValue.ydict []])]
      [goodPlaneDict, YValue.ydict []] rfl rfl
      ⟨YValue.ydict [], List.mem_cons_of_mem goodPlaneDict (List.mem_cons_self _ _),
        fun q h => Except.noConfusion h⟩⟩

/-- C6: serializing a registry and merging the serialized value into a
freshly constructed empty registry succeeds and yields the same set of
airplane names, with each airplane keeping its row count, row layout
and reserved-seat membership. -/
theorem serialize_then_merge_equiv (r : Airline) (nm fname : String)
    (hkeys : ∀ kp ∈ r.airplanes, kp.2.name = kp.1)
    (hnodup : (r.airplanes.map Prod.fst).Nodup) :
    ((mkAirline nm).load_snapshot [(fname, FileContent.yaml r.to_dict)] (some fname)).2 = true ∧
    ((((mkAirline nm).load_snapshot [(fname, FileContent.yaml r.to_dict)]
        (some fname)).1.airplanes.map Prod.fst).toFinset =
      (r.airplanes.map Prod.fst).toFinset) ∧
    (∀ k q, pyDictGet? r.airplanes k = some q →
      ∃ q2, pyDictGet? (((mkAirline nm).load_snapshot [(fname, FileContent.yaml r.to_dict)]
          (some fname)).1.airplanes) k = some q2 ∧
        q2.row_count = q.row_count ∧ q2.row_layout = q.row_layout ∧
        q2.reserved_seats = q.reserved_seats) := by
  have hcore : (mkAirline nm).load_snapshot [(fname, FileContent.yaml r.to_dict)]
      (some fname) = ({ mkAirline nm with airplanes := r.airplanes }, true) := by
    rw [Airline.load_snapshot]
    simp only [Option.getD_some, pyDictGet?, if_pos rfl]
    rw [Airline.to_dict]
    simp only [yTruthy, Bool.not_eq_true, List.isEmpty_cons, if_true]
    simp only [pyDictGet?, String.reduceEq, reduceIte]
    have hmm : r.airplanes.map (fun kp => kp.2.to_dict) =
        r.airplanes.map (fun kp => Airplane.to_dict kp.2) := rfl
    rw [hmm]
    have : load_airplane_entries (mkAirline nm).airplanes
        (r.airplanes.map (fun kp => Airplane.to_dict kp.2)) = ([] ++ r.airplanes, true) :=
      load_entries_roundtrip r.airplanes [] hkeys (by simp [mkAirline]) hnodup
    rw [this]
    simp
  refine ⟨by rw [hcore], by rw [hcore], ?_⟩
  intro k q hq
  refine ⟨q, ?_, rfl, rfl, rfl⟩
  rw [hcore]
  exact hq

/-- C6 (witness): instance at a registry holding one airplane with a
reserved seat. -/
theorem serialize_then_merge_equiv_witness :
    ((∀ kp ∈ airlineR.airplanes, kp.2.name = kp.1) ∧
      (airlineR.airplanes.map Prod.fst).Nodup) ∧
    (((mkAirline "Fresh").load_snapshot [("f.snap", FileContent.yaml airlineR.to_dict)]
        (some "f.snap")).2 = true ∧
    ((((mkAirline "Fresh").load_snapshot [("f.snap", FileContent.yaml airlineR.to_dict)]
        (some "f.snap")).1.airplanes.map Prod.fst).toFinset =
      (airlineR.airplanes.map Prod.fst).toFinset) ∧
    (∀ k q, pyDictGet? airlineR.airplanes k = some q →
      ∃ q2, pyDictGet? (((mkAirline "Fresh").load_snapshot
          [("f.snap", FileContent.yaml airlineR.to_dict)] (some "f.snap")).1.airplanes) k = some q2 ∧
        q2.row_count = q.row_count ∧ q2.row_layout = q.row_layout ∧
        q2.reserved_seats = q.reserved_seats)) :=
  ⟨⟨by decide, by decide⟩,
    serialize_then_merge_equiv airlineR "Fresh" "f.snap" (by decide) (by decide)⟩

/-- C7: parsing the seat identifier produced by `get_seat_name` with
`get_seat_index` recovers the flat index `row * seats_per_row + position`,
and that flat index determines the original pair by division and
remainder. -/
theorem parse_decode_roundtrip (a : Airplane) (r p : Nat)
    (hc : 65 + r < 55296)
    (hrow : (r : Int) < a.row_count)
    (hpos : p < a.seats_per_row) :
    a.get_seat_index (get_seat_name (r : Int) (p : Int)) =
      some ((r : Int) * a.seats_per_row + (p : Int)) ∧
    (r * a.seats_per_row + p) / a.seats_per_row = r ∧
    (r * a.seats_per_row + p) % a.seats_per_row = p := by
  obtain ⟨d, t, hd, hdata, hpy⟩ := get_seat_name_data_shape r p
  have hspr : 0 < a.seats_per_row := by omega
  refine ⟨?_, ?_, ?_⟩
  · rw [Airplane.get_seat_index, hdata]
    simp only [hpy, pyChr_row_toNat r hc]
    rw [if_neg]
    push_neg
    refine ⟨by omega, hrow, by omega, by exact_mod_cast hpos⟩
  · rw [Nat.add_comm, Nat.add_mul_div_right _ _ hspr, Nat.div_eq_of_lt hpos]
    omega
  · rw [Nat.add_comm, Nat.add_mul_mod_self_right, Nat.mod_eq_of_lt hpos]

/-- C7 (witness): instance at the fresh two-row plane, row 1,
position 5 (seat `B5`). -/
theorem parse_decode_roundtrip_witness :
    (65 + 1 < 55296 ∧ ((1 : Nat) : Int) < planeA.row_count ∧ 5 < planeA.seats_per_row) ∧
    (planeA.get_seat_index (get_seat_name ((1 : Nat) : Int) ((5 : Nat) : Int)) =
      some (((1 : Nat) : Int) * planeA.seats_per_row + ((5 : Nat) : Int)) ∧
    (1 * planeA.seats_per_row + 5) / planeA.seats_per_row = 1 ∧
    (1 * planeA.seats_per_row + 5) % planeA.seats_per_row = 5) :=
  ⟨⟨by decide, by decide, by decide⟩,
    parse_decode_roundtrip planeA 1 5 (by decide) (by decide) (by decide)⟩

/-- C8: `save_snapshot` rejects any path not ending in `.snap`,
returning `false` and leaving the file system untouched; in particular
saving to `plan.txt` fails and creates no file of that name. -/
theorem save_snapshot_rejects_non_snap (al : Airline) (fs : FS) (p : String)
    (h : pyEndsWith p ".snap" = false) :
    al.save_snapshot fs (some p) = (fs, false) ∧
    (pyDictGet? fs "plan.txt" = none →
      (al.save_snapshot fs (some "plan.txt")).2 = false ∧
      pyDictGet? (al.save_snapshot fs (some "plan.txt")).1 "plan.txt" = none) := by
  have htxt : pyEndsWith "plan.txt" ".snap" = false := by decide
  constructor
  · rw [Airline.save_snapshot]
    simp only [Option.getD_some, h, Bool.false_eq_true, not_false_eq_true, if_true]
  · intro hnone
    rw [Airline.save_snapshot]
    simp only [Option.getD_some, htxt, Bool.false_eq_true, not_false_eq_true, if_true]
    exact ⟨trivial, hnone⟩

/-- C8 (witness): instance at an empty registry, empty file system and
path `plan.txt`. -/
theorem save_snapshot_rejects_non_snap_witness :
    (pyEndsWith "plan.txt" ".snap" = false) ∧
    (airlineE.save_snapshot [] (some "plan.txt") = ([], false) ∧
    (pyDictGet? ([] : FS) "plan.txt" = none →
      (airlineE.save_snapshot [] (some "plan.txt")).2 = false ∧
      pyDictGet? (airlineE.save_snapshot [] (some "plan.txt")).1 "plan.txt" = none)) :=
  ⟨by decide, save_snapshot_rejects_non_snap airlineE [] "plan.txt" (by decide)⟩

/-- C10: for a start seat that parses in bounds, the zero-count block
operations all succeed trivially and leave the airplane unchanged. -/
theorem zero_count_block_ops_trivial (a : Airplane) (s : String)
    (h : (a.get_seat_index s).isSome = true) :
    a.check_consecutive_seats s 0 = true ∧
    a.book_seats s 0 = (a, true) ∧
    a.cancel_seats s 0 = (a, true) := by
  rcases hs : s.data with _ | ⟨c, _ | ⟨d, t⟩⟩
  · rw [Airplane.get_seat_index, hs] at h
    exact absurd h (by simp)
  · rw [Airplane.get_seat_index, hs] at h
    exact absurd h (by simp)
  · rw [Airplane.get_seat_index, hs] at h
    cases hpi : pyInt? (d :: t) with
    | none =>
      exact absurd h (by simp [hpi])
    | some pos =>
      simp only [hpi] at h
      by_cases hg : (c.toNat : Int) - 65 < 0 ∨ (c.toNat : Int) - 65 ≥ a.row_count ∨
          pos < 0 ∨ pos ≥ (a.seats_per_row : Int)
      · rw [if_pos hg] at h
        exact absurd h (by simp)
      · push_neg at hg
        have hcheck : a.check_consecutive_seats s 0 = true := by
          rw [Airplane.check_consecutive_seats, hs]
          simp only [hpi]
          rw [if_neg (by push_neg; refine ⟨hg.1, hg.2.1, hg.2.2.1, by omega⟩)]
          rfl
        refine ⟨hcheck, ?_, ?_⟩
        · rw [Airplane.book_seats, if_neg (by simp [hcheck]), hs]
          simp only [hpi]
          rfl
        · rw [Airplane.cancel_seats, hs]
          simp only [hpi]
          rw [if_neg (by push_neg; refine ⟨hg.1, hg.2.1, hg.2.2.1, by omega⟩)]
          rfl

/-- C10 (witness): instance at the fresh two-row plane and seat `A0`. -/
theorem zero_count_block_ops_trivial_witness :
    ((planeA.get_seat_index "A0").isSome = true) ∧
    (planeA.check_consecutive_seats "A0" 0 = true ∧
      planeA.book_seats "A0" 0 = (planeA, true) ∧
      planeA.cancel_seats "A0" 0 = (planeA, true)) :=
  ⟨by decide, zero_count_block_ops_trivial planeA "A0" (by decide)⟩

